import Mathlib

/-!
Shallow embedding of the `inventory` Django app (stockwise repository):
`inventory/models.py` (Product, Sale, SaleItem, StockTransaction and their
`clean`/`save` hooks) and the relevant parts of `inventory/views.py`
(SaleDeleteView.delete, the sale create/update item flows, the two JSON
endpoints).

Modelling conventions:
- the database is an explicit `DB` value holding the four tables as lists
  of rows;
- Django model instances held in memory (with their cached foreign-key
  objects) are separate `...Instance` structures: an instance's `product`
  field is the Python-level cached `Product` object, which can be stale
  with respect to the database row;
- `save()`/`delete()` methods become functions `DB → ... → Option String × DB`:
  the first component is `some msg` when the Python code raises
  (ValidationError / IntegrityError / ProtectedError), and the returned
  `DB` is the database state at the moment the exception escapes (so a
  partially committed state is representable, exactly as with Django's
  default autocommit);
- view code wrapped in `transaction.atomic()` rolls back to the entry
  state on error;
- `DecimalField` values are modelled as integers, `PositiveIntegerField`
  columns as `Int` (the Python objects can hold negative ints in memory;
  the `clean` checks are what guard the database);
- Python falsiness of a blank/null `CharField` is modelled as the value
  `""`.
-/

namespace StockWise

/-- Row of the products table (`inventory.models.Product`). -/
structure Product where
  id : Nat
  name : String
  sku : String
  buying_price : Int
  selling_price : Int
  current_stock : Int
  min_stock_level : Int
  is_active : Bool
  deriving Repr, DecidableEq

/-- Row of the sales table (`inventory.models.Sale`). Fields not used by any
claim (date, payment_method, notes, timestamps) are omitted. -/
structure Sale where
  id : Nat
  sale_number : String
  total_amount : Int
  deriving Repr, DecidableEq

/-- Row of the sale items table (`inventory.models.SaleItem`). -/
structure SaleItem where
  id : Nat
  saleId : Nat
  productId : Nat
  quantity : Int
  unit_price : Int
  deriving Repr, DecidableEq

/-- Row of the stock transactions table (`inventory.models.StockTransaction`).
Type/reference/notes/timestamp are omitted: they never influence control flow. -/
structure StockTransaction where
  id : Nat
  productId : Nat
  quantity : Int
  deriving Repr, DecidableEq

/-- The whole database. -/
structure DB where
  products : List Product
  sales : List Sale
  items : List SaleItem
  transactions : List StockTransaction
  deriving Repr, DecidableEq

/-- `Product.objects.get(id=pid)` / FK dereference by id. -/
def findProduct (db : DB) (pid : Nat) : Option Product :=
  db.products.find? (fun p => p.id = pid)

/-- Convenience: the stored stock counter of product `pid`. -/
def productStock (db : DB) (pid : Nat) : Option Int :=
  (findProduct db pid).map (fun p => p.current_stock)

/-- SQL UPDATE-or-INSERT of a product row keyed by primary key, as performed
by `Model.save()`. -/
def putProduct (db : DB) (p : Product) : DB :=
  if db.products.any (fun q => q.id = p.id) then
    { db with products := db.products.map (fun q => if q.id = p.id then p else q) }
  else
    { db with products := db.products ++ [p] }

/-- `Product.objects.count()`. -/
def productCount (db : DB) : Nat := db.products.length

/-- Fresh autoincrement id for an inserted product. -/
def freshProductId (db : DB) : Nat :=
  (db.products.map (fun p => p.id)).foldr max 0 + 1

/-- An unsaved / in-memory `Product` model instance (`pk = none` before the
first save). -/
structure ProductInstance where
  pk : Option Nat
  name : String
  sku : String
  buying_price : Int
  selling_price : Int
  current_stock : Int
  min_stock_level : Int
  is_active : Bool
  deriving Repr, DecidableEq

/-- `Product.clean` (models.py lines 24-29): price ordering then
non-negative stock, raising on the first violated check. -/
def Product.cleanCheck (p : ProductInstance) : Option String :=
  if p.selling_price < p.buying_price then
    some "Selling price cannot be less than buying price."
  else if p.current_stock < 0 then
    some "Stock cannot be negative."
  else
    none

/-- `Product.save` (models.py lines 31-35): run `clean`, assign
`SKU-(self.id or count+1)` when the sku is blank, then write the row.
The database-level `unique=True` on `sku` makes the write fail when another
row carries the same sku. -/
def Product.save (db : DB) (p : ProductInstance) : Option String × DB :=
  match Product.cleanCheck p with
  | some e => (some e, db)
  | none =>
    let sku := if p.sku = "" then
        "SKU-" ++ toString (match p.pk with
          | some i => i
          | none => productCount db + 1)
      else p.sku
    let id := match p.pk with
      | some i => i
      | none => freshProductId db
    let row : Product :=
      { id := id, name := p.name, sku := sku,
        buying_price := p.buying_price, selling_price := p.selling_price,
        current_stock := p.current_stock, min_stock_level := p.min_stock_level,
        is_active := p.is_active }
    if db.products.any (fun q => q.sku = row.sku ∧ q.id ≠ id) then
      (some "IntegrityError: duplicate sku", db)
    else
      (none, putProduct db row)

/-- View a stored row as the in-memory instance obtained by loading it
(used when model code calls `.save()` on a freshly fetched related object). -/
def Product.toInstance (p : Product) : ProductInstance :=
  { pk := some p.id, name := p.name, sku := p.sku,
    buying_price := p.buying_price, selling_price := p.selling_price,
    current_stock := p.current_stock, min_stock_level := p.min_stock_level,
    is_active := p.is_active }

/-- `some_product.save()` where `some_product` is a loaded row. -/
def Product.saveRow (db : DB) (p : Product) : Option String × DB :=
  Product.save db (Product.toInstance p)

/-! ### Sale -/

/-- An in-memory `Sale` model instance. -/
structure SaleInstance where
  pk : Option Nat
  sale_number : String
  total_amount : Int
  deriving Repr, DecidableEq

/-- The component after the last dash: `sale_number.split('-')[-1]`.
(Char-level scan; the library string functions are well-founded recursive
and would not evaluate inside the kernel.) -/
def lastDashComponent : List Char → List Char → List Char
  | [], acc => acc
  | c :: rest, acc =>
    if c = '-' then lastDashComponent rest []
    else lastDashComponent rest (acc ++ [c])

/-- Python `int(...)` on the digit strings this app generates: `none`
models the ValueError raised on an empty or non-numeric component. -/
def parseDigits (l : List Char) : Option Nat :=
  if l.isEmpty then none
  else
    l.foldl
      (fun acc c =>
        match acc with
        | none => none
        | some n =>
          if c.isDigit then some (n * 10 + (c.toNat - 48)) else none)
      (some 0)

/-- `int(sale_number.split('-')[-1])`. -/
def parseSaleSuffix (s : String) : Option Nat :=
  parseDigits (lastDashComponent s.data [])

/-- Python `f"SALE-{n:06d}"` padding: the decimal digits of `n`,
left-padded with zeros to at least six characters. -/
def pad6 (n : Nat) : String :=
  let s := toString n
  String.mk (List.replicate (6 - s.length) '0') ++ s

/-- One step of scanning for the row with the largest id. -/
def saleFoldStep (acc : Option Sale) (s : Sale) : Option Sale :=
  match acc with
  | none => some s
  | some t => if s.id > t.id then some s else acc

/-- `Sale.objects.order_by('-id').first()`: the row with the largest id. -/
def lastSaleByPk (db : DB) : Option Sale :=
  db.sales.foldl saleFoldStep none

/-- The sale-number generation block of `Sale.save` (models.py lines 74-78). -/
def Sale.genNumber (db : DB) (s : SaleInstance) : Except String SaleInstance :=
  if s.sale_number = "" then
    match lastSaleByPk db with
    | none => Except.ok { s with sale_number := "SALE-" ++ pad6 (0 + 1) }
    | some ls =>
      match parseSaleSuffix ls.sale_number with
      | none => Except.error "ValueError: invalid literal for int"
      | some n => Except.ok { s with sale_number := "SALE-" ++ pad6 (n + 1) }
  else
    Except.ok s

/-- Fresh autoincrement id for an inserted sale. -/
def freshSaleId (db : DB) : Nat :=
  (db.sales.map (fun s => s.id)).foldr max 0 + 1

/-- UPDATE-or-INSERT of a sale row keyed by primary key. -/
def putSale (db : DB) (s : Sale) : DB :=
  if db.sales.any (fun t => t.id = s.id) then
    { db with sales := db.sales.map (fun t => if t.id = s.id then s else t) }
  else
    { db with sales := db.sales ++ [s] }

/-- `Sale.save` (models.py lines 73-79): generate the sale number when blank,
then write the row; `unique=True` on `sale_number` rejects duplicates. -/
def Sale.save (db : DB) (s : SaleInstance) : Option String × DB :=
  match Sale.genNumber db s with
  | Except.error e => (some e, db)
  | Except.ok s2 =>
    let id := match s2.pk with
      | some i => i
      | none => freshSaleId db
    let row : Sale :=
      { id := id, sale_number := s2.sale_number, total_amount := s2.total_amount }
    if db.sales.any (fun t => t.sale_number = row.sale_number ∧ t.id ≠ id) then
      (some "IntegrityError: duplicate sale_number", db)
    else
      (none, putSale db row)

/-- `sale.items.all()`: the items whose FK points at `sid`. -/
def saleItemsOf (db : DB) (sid : Nat) : List SaleItem :=
  db.items.filter (fun i => i.saleId = sid)

/-- Sum of `quantity * unit_price` over a list of item rows (the SQL
`Sum(F('quantity') * F('unit_price'))` aggregate, with `0` for the empty
aggregate handled separately in `Sale.update_total`). -/
def subtotalSum (l : List SaleItem) : Int :=
  l.foldr (fun i acc => i.quantity * i.unit_price + acc) 0

/-- `Sale.update_total` (models.py lines 81-86): recompute `total_amount`
as the aggregate over the sale's items (`None`, i.e. the empty aggregate,
coerced to 0 by `or 0`) and save the sale. -/
def Sale.update_total (db : DB) (sid : Nat) : Option String × DB :=
  match db.sales.find? (fun s => s.id = sid) with
  | none => (some "Sale matching query does not exist", db)
  | some s =>
    let agg : Option Int :=
      match saleItemsOf db sid with
      | [] => none
      | l => some (subtotalSum l)
    Sale.save db
      { pk := some s.id, sale_number := s.sale_number,
        total_amount := agg.getD 0 }

/-! ### SaleItem -/

/-- An in-memory `SaleItem` model instance. `product` is the Python-level
cached related object (`self.product`): a snapshot of the product row as it
was when the instance's FK was last dereferenced, possibly stale by the
time `save` writes it back. -/
structure SaleItemInstance where
  pk : Option Nat
  saleId : Nat
  product : Option Product
  quantity : Int
  unit_price : Int
  deriving Repr, DecidableEq

/-- `SaleItem.clean` (models.py lines 103-129): product presence,
quantity ≥ 1, unit price ≥ 0, then the stock check against the cached
product's counter, adding back the stored quantity when updating. -/
def SaleItem.cleanCheck (db : DB) (it : SaleItemInstance) : Option String :=
  match it.product with
  | none => some "Sale item must have a product."
  | some p =>
    if it.quantity < 1 then some "Quantity must be at least 1."
    else if it.unit_price < 0 then some "Unit price cannot be negative."
    else
      let available := p.current_stock +
        (match it.pk with
         | some pk =>
           match db.items.find? (fun o => o.id = pk) with
           | some o => o.quantity
           | none => 0
         | none => 0)
      if it.quantity > available then some "Insufficient stock." else none

/-- Fresh autoincrement id for an inserted sale item. -/
def freshItemId (db : DB) : Nat :=
  (db.items.map (fun i => i.id)).foldr max 0 + 1

/-- UPDATE-or-INSERT of a sale item row keyed by primary key. -/
def putItem (db : DB) (i : SaleItem) : DB :=
  if db.items.any (fun o => o.id = i.id) then
    { db with items := db.items.map (fun o => if o.id = i.id then i else o) }
  else
    { db with items := db.items ++ [i] }

/-- `SaleItem.save` (models.py lines 131-147), step by step:
1. `self.clean()` — raises with the database untouched;
2. when updating, re-fetch the stored item and its product fresh from the
   database, add the stored quantity back and save that product;
3. `super().save()` — write the item row (the `unique_together
   ['sale','product']` and the product FK constraint can reject it);
4. `self.product.current_stock -= self.quantity; self.product.save()` —
   performed on the *cached* product object `self.product`, not on the
   freshly written row from step 2.
The restore step 2 (models.py lines 135-141) is `SaleItem.restoreOriginal`
below; `SaleItem.save` performs steps 1, 3 and 4 around it. -/
def SaleItem.restoreOriginal (db : DB) (it : SaleItemInstance) : Option String × DB :=
  match it.pk with
  | none => (none, db)
  | some pk =>
    match db.items.find? (fun o => o.id = pk) with
    | none => (none, db)
    | some o =>
      match findProduct db o.productId with
      | none => (some "Product matching query does not exist", db)
      | some op =>
        Product.saveRow db { op with current_stock := op.current_stock + o.quantity }

def SaleItem.save (db : DB) (it : SaleItemInstance) : Option String × DB :=
  match SaleItem.cleanCheck db it with
  | some e => (some e, db)
  | none =>
    match it.product with
    | none => (some "Sale item must have a product.", db)
    | some prod =>
      match SaleItem.restoreOriginal db it with
      | (some e, db1) => (some e, db1)
      | (none, db1) =>
        let rowId := match it.pk with
          | some i => i
          | none => freshItemId db1
        let row : SaleItem :=
          { id := rowId, saleId := it.saleId, productId := prod.id,
            quantity := it.quantity, unit_price := it.unit_price }
        if (findProduct db1 prod.id).isNone then
          (some "IntegrityError: FOREIGN KEY constraint failed", db1)
        else if db1.items.any (fun o =>
            o.saleId = row.saleId ∧ o.productId = row.productId ∧ o.id ≠ rowId) then
          (some "IntegrityError: UNIQUE constraint failed", db1)
        else
          let db2 := putItem db1 row
          Product.saveRow db2 { prod with current_stock := prod.current_stock - it.quantity }

/-! ### StockTransaction -/

/-- An in-memory `StockTransaction` instance (always freshly created). -/
structure StockTransactionInstance where
  productId : Nat
  quantity : Int
  deriving Repr, DecidableEq

/-- Fresh autoincrement id for an inserted stock transaction. -/
def freshTransId (db : DB) : Nat :=
  (db.transactions.map (fun t => t.id)).foldr max 0 + 1

/-- `StockTransaction.save` (models.py lines 170-174): `super().save()`
first commits the transaction row (failing only on a dangling product FK),
and only then is the product counter incremented and the product saved —
there is no `transaction.atomic` around the two writes, so a failing
product save leaves the committed transaction row behind. -/
def StockTransaction.save (db : DB) (t : StockTransactionInstance) :
    Option String × DB :=
  match findProduct db t.productId with
  | none => (some "IntegrityError: FOREIGN KEY constraint failed", db)
  | some p =>
    let db1 : DB :=
      { db with transactions :=
          db.transactions ++ [{ id := freshTransId db, productId := t.productId,
                                quantity := t.quantity }] }
    Product.saveRow db1 { p with current_stock := p.current_stock + t.quantity }

/-! ### View-level flows -/

/-- The restore loop of `SaleDeleteView.delete` (views.py lines 342-344):
`item.product.current_stock += item.quantity; item.product.save()` for each
item, each iteration reading the product fresh from the current state. -/
def restoreItemsStock (db : DB) : List SaleItem → Option String × DB
  | [] => (none, db)
  | i :: rest =>
    match findProduct db i.productId with
    | none => (some "Product matching query does not exist", db)
    | some p =>
      match Product.saveRow db { p with current_stock := p.current_stock + i.quantity } with
      | (some e, _) => (some e, db)
      | (none, db1) => restoreItemsStock db1 rest

/-- `SaleDeleteView.delete` (views.py lines 337-347): inside
`transaction.atomic()`, restore stock for every item of the sale, then
`super().delete()` deletes the Sale row. `SaleItem.sale` is declared with
`on_delete=PROTECT` (models.py line 89), so the delete raises
`ProtectedError` whenever the sale still has items, and the atomic block
rolls everything back to the entry state. -/
def SaleDeleteView.delete (db : DB) (sid : Nat) : Option String × DB :=
  match db.sales.find? (fun s => s.id = sid) with
  | none => (some "Http404", db)
  | some _ =>
    match restoreItemsStock db (saleItemsOf db sid) with
    | (some e, _) => (some e, db)
    | (none, db1) =>
      if (saleItemsOf db1 sid).isEmpty then
        (none, { db1 with sales := db1.sales.filter (fun s => s.id ≠ sid) })
      else
        (some "ProtectedError", db)

/-- Saving a list of sale item instances in order, stopping at the first
exception (the formset loop in `SaleCreateView.form_valid` /
`SaleUpdateView.form_valid`). -/
def saveItemList (db : DB) : List SaleItemInstance → Option String × DB
  | [] => (none, db)
  | i :: rest =>
    match SaleItem.save db i with
    | (some e, db1) => (some e, db1)
    | (none, db1) => saveItemList db1 rest

/-- `instance.delete()` on formset-deleted sale items: a plain row delete
(`SaleItem` defines no delete hook, so no stock is restored). -/
def deleteItemRows (db : DB) (pks : List Nat) : DB :=
  { db with items := db.items.filter (fun i => ¬ pks.contains i.id) }

/-- The item-mutation transaction shared by `SaleCreateView.form_valid` and
`SaleUpdateView.form_valid` (views.py lines 196-217 and 273-317): inside
`transaction.atomic()`, save the edited/new items, delete the removed ones,
then call `sale.update_total()`; any exception rolls back to the entry
state. -/
def saleMutate (db : DB) (sid : Nat) (saves : List SaleItemInstance)
    (deletes : List Nat) : Option String × DB :=
  match saveItemList db saves with
  | (some e, _) => (some e, db)
  | (none, db1) =>
    let db2 := deleteItemRows db1 deletes
    match Sale.update_total db2 sid with
    | (some e, _) => (some e, db)
    | (none, db3) => (none, db3)

/-! ### JSON endpoints -/

/-- A rendered `JsonResponse` for the two product APIs. -/
structure JsonResp where
  status : Nat
  price : Option Int
  stock : Option Int
  error : Option String
  deriving Repr, DecidableEq

/-- `product_price_api` (views.py lines 397-405). -/
def product_price_api (db : DB) (pid : Nat) : JsonResp :=
  match findProduct db pid with
  | some p =>
    { status := 200, price := some p.selling_price,
      stock := some p.current_stock, error := none }
  | none =>
    { status := 404, price := none, stock := none,
      error := some "Product not found" }

/-- `product_stock_api` (views.py lines 407-412). -/
def product_stock_api (db : DB) (pid : Nat) : JsonResp :=
  match findProduct db pid with
  | some p =>
    { status := 200, price := none, stock := some p.current_stock,
      error := none }
  | none =>
    { status := 404, price := none, stock := none,
      error := some "Product not found" }

/-! ### The stock-mutating operations, packaged for the invariant claim -/

/-- One completed-or-attempted mutating operation of the app. -/
inductive Op where
  | psave (p : ProductInstance)
  | tsave (t : StockTransactionInstance)
  | isave (i : SaleItemInstance)
  | sdelete (sid : Nat)
  deriving Repr

/-- Dispatch an operation against the database. -/
def applyOp (db : DB) : Op → Option String × DB
  | Op.psave p => Product.save db p
  | Op.tsave t => StockTransaction.save db t
  | Op.isave i => SaleItem.save db i
  | Op.sdelete sid => SaleDeleteView.delete db sid

/-- All stored stock counters are non-negative. -/
def nonnegStock (db : DB) : Prop :=
  ∀ p ∈ db.products, 0 ≤ p.current_stock

/-- Numeric suffix of a stored sale number (0 as a junk default; the
claims always assume the parse succeeds). -/
def saleSuffix (s : Sale) : Nat :=
  (parseSaleSuffix s.sale_number).getD 0

/-- The spec-side quantity for the sale-number claim: "the highest numeric
suffix among all existing sale numbers" (spec §3), as opposed to the
code's "suffix of the row with the largest id". -/
def specMaxSuffix (db : DB) : Nat :=
  (db.sales.map saleSuffix).foldr max 0

/-! ## Helper lemmas -/

theorem mem_putProduct (db : DB) (p q : Product)
    (h : q ∈ (putProduct db p).products) : q = p ∨ q ∈ db.products := by
  unfold putProduct at h
  split at h
  · simp only [List.mem_map] at h
    obtain ⟨r, hr, hq⟩ := h
    by_cases hid : r.id = p.id
    · simp only [hid, if_pos rfl] at hq
      exact Or.inl hq.symm
    · simp only [if_neg hid] at hq
      exact Or.inr (hq ▸ hr)
  · simp only [List.mem_append, List.mem_singleton] at h
    exact h.symm.imp id (fun h => h)

theorem find?_products_replace_self (l : List Product) (p : Product)
    (h : l.any (fun q => q.id = p.id) = true) :
    (l.map (fun q => if q.id = p.id then p else q)).find?
      (fun q => q.id = p.id) = some p := by
  induction l with
  | nil => simp at h
  | cons a l ih =>
    by_cases ha : a.id = p.id
    · simp [List.find?, ha]
    · have h' : l.any (fun q => q.id = p.id) = true := by
        simpa [List.any_cons, ha] using h
      simp [List.find?, ha, ih h']

theorem find?_products_replace_other (l : List Product) (p : Product) (k : Nat)
    (hk : k ≠ p.id) :
    (l.map (fun q => if q.id = p.id then p else q)).find? (fun q => q.id = k) =
      l.find? (fun q => q.id = k) := by
  induction l with
  | nil => simp
  | cons a l ih =>
    simp only [List.map_cons]
    by_cases ha : a.id = p.id
    · have hpk : ¬ p.id = k := fun h => hk h.symm
      have hak : ¬ a.id = k := fun h => hk (by rw [← h, ha])
      rw [if_pos ha, List.find?_cons_of_neg _ (by simpa using hpk),
        List.find?_cons_of_neg _ (by simpa using hak), ih]
    · rw [if_neg ha]
      by_cases hak : a.id = k
      · rw [List.find?_cons_of_pos _ (by simpa using hak),
          List.find?_cons_of_pos _ (by simpa using hak)]
      · rw [List.find?_cons_of_neg _ (by simpa using hak),
          List.find?_cons_of_neg _ (by simpa using hak), ih]

theorem findProduct_put_self (db : DB) (p : Product) :
    findProduct (putProduct db p) p.id = some p := by
  unfold findProduct putProduct
  split
  · exact find?_products_replace_self _ _ (by assumption)
  · rename_i hany
    have hnone : db.products.find? (fun q => q.id = p.id) = none := by
      rw [List.find?_eq_none]
      intro x hx hcontra
      exact hany (List.any_eq_true.mpr ⟨x, hx, hcontra⟩)
    simp [List.find?_append, hnone, List.find?]

theorem findProduct_put_other (db : DB) (p : Product) (k : Nat) (hk : k ≠ p.id) :
    findProduct (putProduct db p) k = findProduct db k := by
  unfold findProduct putProduct
  split
  · exact find?_products_replace_other _ _ _ hk
  · have hpk : ¬ p.id = k := fun h => hk h.symm
    simp [List.find?_append, List.find?, hpk]

theorem find?_sales_replace_self (l : List Sale) (s : Sale)
    (h : l.any (fun t => t.id = s.id) = true) :
    (l.map (fun t => if t.id = s.id then s else t)).find?
      (fun t => t.id = s.id) = some s := by
  induction l with
  | nil => simp at h
  | cons a l ih =>
    by_cases ha : a.id = s.id
    · simp [List.find?, ha]
    · have h' : l.any (fun t => t.id = s.id) = true := by
        simpa [List.any_cons, ha] using h
      simp [List.find?, ha, ih h']

theorem findSale_put_self (db : DB) (s : Sale) :
    (putSale db s).sales.find? (fun t => t.id = s.id) = some s := by
  unfold putSale
  split
  · exact find?_sales_replace_self _ _ (by assumption)
  · rename_i hany
    have hnone : db.sales.find? (fun t => t.id = s.id) = none := by
      rw [List.find?_eq_none]
      intro x hx hcontra
      exact hany (List.any_eq_true.mpr ⟨x, hx, hcontra⟩)
    simp [List.find?_append, hnone, List.find?]

theorem putProduct_items (db : DB) (p : Product) :
    (putProduct db p).items = db.items := by
  unfold putProduct; split <;> rfl

theorem putProduct_sales (db : DB) (p : Product) :
    (putProduct db p).sales = db.sales := by
  unfold putProduct; split <;> rfl

theorem putItem_products (db : DB) (i : SaleItem) :
    (putItem db i).products = db.products := by
  unfold putItem; split <;> rfl

theorem putSale_items (db : DB) (s : Sale) :
    (putSale db s).items = db.items := by
  unfold putSale; split <;> rfl

theorem cleanCheck_none_stock (p : ProductInstance)
    (h : Product.cleanCheck p = none) : 0 ≤ p.current_stock := by
  unfold Product.cleanCheck at h
  split at h
  · exact absurd h (by simp)
  · split at h
    · exact absurd h (by simp)
    · rename_i hneg
      omega

theorem productSave_error (db : DB) (p : ProductInstance) {e : String} {db2 : DB}
    (h : Product.save db p = (some e, db2)) : db2 = db := by
  unfold Product.save at h
  split at h
  · simp only [Prod.mk.injEq] at h; exact h.2.symm
  · dsimp only at h
    split at h <;> split at h <;>
      first
        | (simp only [Prod.mk.injEq] at h; exact h.2.symm)
        | simp at h

theorem saveRow_error (db : DB) (p : Product) {e : String} {db2 : DB}
    (h : Product.saveRow db p = (some e, db2)) : db2 = db :=
  productSave_error db _ h

theorem saveRow_success (db : DB) (p : Product) {db2 : DB}
    (h : Product.saveRow db p = (none, db2)) :
    ∃ r : Product, db2 = putProduct db r ∧ r.id = p.id ∧
      r.current_stock = p.current_stock := by
  unfold Product.saveRow Product.save Product.toInstance at h
  split at h
  · simp at h
  · dsimp only at h
    split at h <;> split at h <;>
      first
        | (simp only [Prod.mk.injEq, true_and] at h; exact ⟨_, h.symm, rfl, rfl⟩)
        | simp at h

theorem putProduct_nonneg (db : DB) (p : Product) (hdb : nonnegStock db)
    (hp : 0 ≤ p.current_stock) : nonnegStock (putProduct db p) := by
  intro q hq
  rcases mem_putProduct db p q hq with h | h
  · exact h ▸ hp
  · exact hdb q h

theorem productSave_nonneg (db : DB) (p : ProductInstance)
    (hdb : nonnegStock db) : nonnegStock (Product.save db p).2 := by
  unfold Product.save
  split
  · exact hdb
  · rename_i hclean
    dsimp only
    split <;> split
    · exact hdb
    · exact putProduct_nonneg db _ hdb (cleanCheck_none_stock p hclean)
    · exact hdb
    · exact putProduct_nonneg db _ hdb (cleanCheck_none_stock p hclean)

theorem saveRow_nonneg (db : DB) (p : Product) (hdb : nonnegStock db) :
    nonnegStock (Product.saveRow db p).2 :=
  productSave_nonneg db _ hdb

theorem restoreOriginal_nonneg (db : DB) (it : SaleItemInstance)
    (hdb : nonnegStock db) : nonnegStock (SaleItem.restoreOriginal db it).2 := by
  unfold SaleItem.restoreOriginal
  split
  · exact hdb
  · split
    · exact hdb
    · split
      · exact hdb
      · exact saveRow_nonneg _ _ hdb

theorem saleItemSave_nonneg (db : DB) (it : SaleItemInstance)
    (hdb : nonnegStock db) : nonnegStock (SaleItem.save db it).2 := by
  unfold SaleItem.save
  split
  · exact hdb
  · split
    · exact hdb
    · rcases hres : SaleItem.restoreOriginal db it with ⟨e, db1⟩
      have h1 : nonnegStock db1 := by
        have h := restoreOriginal_nonneg db it hdb
        rw [hres] at h; exact h
      cases e with
      | some e => exact h1
      | none =>
        dsimp only
        split
        · exact h1
        · split
          · exact h1
          · refine saveRow_nonneg _ _ ?_
            intro q hq
            rw [putItem_products] at hq
            exact h1 q hq

theorem stockTransactionSave_nonneg (db : DB) (t : StockTransactionInstance)
    (hdb : nonnegStock db) : nonnegStock (StockTransaction.save db t).2 := by
  unfold StockTransaction.save
  split
  · exact hdb
  · exact saveRow_nonneg _ _ (fun q hq => hdb q hq)

theorem restoreItemsStock_nonneg (l : List SaleItem) : ∀ (db : DB),
    nonnegStock db → nonnegStock (restoreItemsStock db l).2 := by
  induction l with
  | nil => intro db hdb; exact hdb
  | cons i rest ih =>
    intro db hdb
    unfold restoreItemsStock
    split
    · exact hdb
    · rename_i p hp
      rcases hsave : Product.saveRow db
          { p with current_stock := p.current_stock + i.quantity } with ⟨e, db1⟩
      cases e with
      | some e => exact hdb
      | none =>
        refine ih db1 ?_
        have h := saveRow_nonneg db
          { p with current_stock := p.current_stock + i.quantity } hdb
        rw [hsave] at h
        exact h

theorem saleDelete_nonneg (db : DB) (sid : Nat) (hdb : nonnegStock db) :
    nonnegStock (SaleDeleteView.delete db sid).2 := by
  unfold SaleDeleteView.delete
  split
  · exact hdb
  · rcases hr : restoreItemsStock db (saleItemsOf db sid) with ⟨e, db1⟩
    cases e with
    | some e => exact hdb
    | none =>
      have h1 : nonnegStock db1 := by
        have h := restoreItemsStock_nonneg (saleItemsOf db sid) db hdb
        rw [hr] at h; exact h
      dsimp only
      split
      · intro q hq; exact h1 q hq
      · exact hdb

theorem genNumber_ok_fields (db : DB) (s s2 : SaleInstance)
    (h : Sale.genNumber db s = Except.ok s2) :
    s2.pk = s.pk ∧ s2.total_amount = s.total_amount := by
  unfold Sale.genNumber at h
  split at h
  · split at h
    · cases h; exact ⟨rfl, rfl⟩
    · split at h
      · cases h
      · cases h; exact ⟨rfl, rfl⟩
  · cases h; exact ⟨rfl, rfl⟩

theorem saleSave_success (db : DB) (s : SaleInstance) {db2 : DB}
    (h : Sale.save db s = (none, db2)) :
    ∃ s2, Sale.genNumber db s = Except.ok s2 ∧ s2.pk = s.pk ∧
      s2.total_amount = s.total_amount ∧
      db2 = putSale db
        { id := match s.pk with | some i => i | none => freshSaleId db,
          sale_number := s2.sale_number, total_amount := s.total_amount } := by
  unfold Sale.save at h
  split at h
  · simp at h
  · rename_i s2 hgen
    dsimp only at h
    split at h
    · simp at h
    · simp only [Prod.mk.injEq, true_and] at h
      obtain ⟨hpk, htot⟩ := genNumber_ok_fields db s s2 hgen
      refine ⟨s2, hgen, hpk, htot, ?_⟩
      rw [← h, hpk, htot]

theorem saleItemsOf_putSale (db : DB) (s : Sale) (sid : Nat) :
    saleItemsOf (putSale db s) sid = saleItemsOf db sid := by
  unfold saleItemsOf
  rw [putSale_items]

theorem findSale_put_self_fields (db : DB) (i : Nat) (num : String) (tot : Int) :
    (putSale db { id := i, sale_number := num, total_amount := tot }).sales.find?
      (fun t => t.id = i) =
      some { id := i, sale_number := num, total_amount := tot } :=
  findSale_put_self db { id := i, sale_number := num, total_amount := tot }

theorem findProduct_putItem (db : DB) (i : SaleItem) (pid : Nat) :
    findProduct (putItem db i) pid = findProduct db pid := by
  unfold findProduct
  rw [putItem_products]

theorem saleFoldStep_ne_none (acc : Option Sale) (s : Sale) :
    saleFoldStep acc s ≠ none := by
  cases acc with
  | none => simp [saleFoldStep]
  | some t =>
    rw [show saleFoldStep (some t) s =
      if s.id > t.id then some s else some t from rfl]
    split <;> simp

theorem foldl_saleFoldStep_none (l : List Sale) : ∀ acc : Option Sale,
    l.foldl saleFoldStep acc = none → l = [] := by
  induction l with
  | nil => intro acc _; rfl
  | cons a l ih =>
    intro acc h
    rw [List.foldl_cons] at h
    have hl := ih _ h
    subst hl
    simp only [List.foldl_nil] at h
    exact absurd h (saleFoldStep_ne_none acc a)

theorem foldl_saleFoldStep_mem (l : List Sale) : ∀ (acc : Option Sale) (r : Sale),
    l.foldl saleFoldStep acc = some r → r ∈ l ∨ acc = some r := by
  induction l with
  | nil => intro acc r h; exact Or.inr h
  | cons a l ih =>
    intro acc r h
    rw [List.foldl_cons] at h
    rcases ih _ _ h with hm | hs
    · exact Or.inl (List.mem_cons_of_mem a hm)
    · cases acc with
      | none =>
        rw [show saleFoldStep none a = some a from rfl] at hs
        injection hs with hs
        exact Or.inl (hs ▸ List.mem_cons_self a l)
      | some t =>
        rw [show saleFoldStep (some t) a =
          if a.id > t.id then some a else some t from rfl] at hs
        split at hs
        · injection hs with hs
          exact Or.inl (hs ▸ List.mem_cons_self a l)
        · exact Or.inr hs

theorem foldl_saleFoldStep_ge (l : List Sale) : ∀ (acc : Option Sale) (r : Sale),
    l.foldl saleFoldStep acc = some r →
    (∀ t ∈ l, t.id ≤ r.id) ∧ (∀ a, acc = some a → a.id ≤ r.id) := by
  induction l with
  | nil =>
    intro acc r h
    refine ⟨fun t ht => absurd ht (List.not_mem_nil t), ?_⟩
    intro a ha
    rw [ha] at h
    injection h with h
    exact h ▸ Nat.le_refl _
  | cons a l ih =>
    intro acc r h
    rw [List.foldl_cons] at h
    obtain ⟨hl, hacc⟩ := ih _ _ h
    cases acc with
    | none =>
      have ha : a.id ≤ r.id := hacc a rfl
      refine ⟨?_, ?_⟩
      · intro t ht
        rcases List.mem_cons.mp ht with rfl | hm
        · exact ha
        · exact hl t hm
      · intro b hb; cases hb
    | some t0 =>
      have hstep : saleFoldStep (some t0) a =
          some (if a.id > t0.id then a else t0) := by
        rw [show saleFoldStep (some t0) a =
          if a.id > t0.id then some a else some t0 from rfl]
        by_cases hgt : a.id > t0.id
        · rw [if_pos hgt, if_pos hgt]
        · rw [if_neg hgt, if_neg hgt]
      have hle : (if a.id > t0.id then a else t0).id ≤ r.id := hacc _ hstep
      have ha : a.id ≤ r.id := by
        by_cases hgt : a.id > t0.id
        · rw [if_pos hgt] at hle; exact hle
        · rw [if_neg hgt] at hle; omega
      have ht0 : t0.id ≤ r.id := by
        by_cases hgt : a.id > t0.id
        · rw [if_pos hgt] at hle; omega
        · rw [if_neg hgt] at hle; exact hle
      refine ⟨?_, ?_⟩
      · intro t ht
        rcases List.mem_cons.mp ht with rfl | hm
        · exact ha
        · exact hl t hm
      · intro b hb
        injection hb with hb
        exact hb ▸ ht0

theorem le_foldr_max (l : List Nat) (x : Nat) (hx : x ∈ l) :
    x ≤ l.foldr max 0 := by
  induction l with
  | nil => cases hx
  | cons a l ih =>
    rw [List.foldr_cons]
    rcases List.mem_cons.mp hx with rfl | hm
    · exact Nat.le_max_left _ _
    · exact Nat.le_trans (ih hm) (Nat.le_max_right _ _)

theorem foldr_max_le (l : List Nat) (b : Nat) (h : ∀ x ∈ l, x ≤ b) :
    l.foldr max 0 ≤ b := by
  induction l with
  | nil => exact Nat.zero_le b
  | cons a l ih =>
    rw [List.foldr_cons]
    exact Nat.max_le.mpr
      ⟨h a (List.mem_cons_self a l), ih (fun x hx => h x (List.mem_cons_of_mem a hx))⟩

/-- The suffix the generator reads (that of the max-id row) is the highest
suffix overall, provided suffixes are monotone in id. -/
theorem lastSale_suffix_is_max (db : DB) (ls : Sale)
    (hlast : lastSaleByPk db = some ls)
    (hmono : ∀ s ∈ db.sales, ∀ t ∈ db.sales, s.id ≤ t.id →
      saleSuffix s ≤ saleSuffix t) :
    saleSuffix ls = specMaxSuffix db := by
  unfold lastSaleByPk at hlast
  have hmem : ls ∈ db.sales := by
    rcases foldl_saleFoldStep_mem db.sales none ls hlast with h | h
    · exact h
    · cases h
  have hge : ∀ t ∈ db.sales, t.id ≤ ls.id :=
    (foldl_saleFoldStep_ge db.sales none ls hlast).1
  unfold specMaxSuffix
  refine Nat.le_antisymm ?_ ?_
  · exact le_foldr_max _ _ (List.mem_map_of_mem saleSuffix hmem)
  · refine foldr_max_le _ _ ?_
    intro x hx
    obtain ⟨t, ht, rfl⟩ := List.mem_map.mp hx
    exact hmono t ht ls hmem (hge t ht)

/-! ## Claim theorems -/

/-- C4: for every product and after every operation of the app (product
save, stock transaction write, sale item creation/update, sale deletion),
every stored `current_stock` is still non-negative. Every write to a
product row goes through `Product.save`, whose `clean` rejects negative
stock, so the property is preserved even by operations that end in an
exception — in particular after every completed operation. -/
theorem c4_stock_never_negative (db : DB) (op : Op) (h : nonnegStock db) :
    nonnegStock (applyOp db op).2 := by
  cases op with
  | psave p => exact productSave_nonneg db p h
  | tsave t => exact stockTransactionSave_nonneg db t h
  | isave i => exact saleItemSave_nonneg db i h
  | sdelete sid => exact saleDelete_nonneg db sid h

def c4db : DB :=
  { products := [
      { id := 1, name := "widget", sku := "SKU-1", buying_price := 3,
        selling_price := 5, current_stock := 5, min_stock_level := 2,
        is_active := true }],
    sales := [], items := [], transactions := [] }

/-- Witness for C4 at a concrete database and stock transaction. -/
theorem c4_stock_never_negative_witness :
    nonnegStock (applyOp c4db (Op.tsave { productId := 1, quantity := -2 })).2 :=
  c4_stock_never_negative c4db (Op.tsave { productId := 1, quantity := -2 })
    (by unfold nonnegStock; decide)

/-- C3: attempting to create (pk absent) a sale item whose quantity exceeds
the referenced product's current stock makes `SaleItem.save` raise a
validation error synchronously, from `clean`, before any write: no item row
is persisted and no product row (stock included) changes. -/
theorem c3_insufficient_stock_rejected (db : DB) (it : SaleItemInstance)
    (p : Product) (hpk : it.pk = none) (hp : it.product = some p)
    (_hsnap : findProduct db p.id = some p)
    (hq : p.current_stock < it.quantity) :
    (SaleItem.save db it).1.isSome ∧ (SaleItem.save db it).2 = db := by
  obtain ⟨e, hclean⟩ : ∃ e, SaleItem.cleanCheck db it = some e := by
    unfold SaleItem.cleanCheck
    rw [hp, hpk]
    dsimp only
    by_cases h1 : it.quantity < 1
    · rw [if_pos h1]; exact ⟨_, rfl⟩
    · rw [if_neg h1]
      by_cases h2 : it.unit_price < 0
      · rw [if_pos h2]; exact ⟨_, rfl⟩
      · rw [if_neg h2, if_pos (by omega : it.quantity > p.current_stock + 0)]
        exact ⟨_, rfl⟩
  have hsave : SaleItem.save db it = (some e, db) := by
    unfold SaleItem.save
    rw [hclean]
  rw [hsave]
  exact ⟨rfl, rfl⟩

def c3db : DB :=
  { products := [
      { id := 1, name := "widget", sku := "SKU-1", buying_price := 3,
        selling_price := 5, current_stock := 6, min_stock_level := 2,
        is_active := true }],
    sales := [{ id := 1, sale_number := "SALE-000001", total_amount := 0 }],
    items := [], transactions := [] }

def c3prod : Product :=
  { id := 1, name := "widget", sku := "SKU-1", buying_price := 3,
    selling_price := 5, current_stock := 6, min_stock_level := 2,
    is_active := true }

def c3item : SaleItemInstance :=
  { pk := none, saleId := 1, product := some c3prod, quantity := 10,
    unit_price := 5 }

/-- Witness for C3: requesting 10 of a product with stock 6. -/
theorem c3_insufficient_stock_rejected_witness :
    (SaleItem.save c3db c3item).1.isSome ∧ (SaleItem.save c3db c3item).2 = c3db :=
  c3_insufficient_stock_rejected c3db c3item c3prod rfl rfl (by decide) (by decide)

def c1db : DB :=
  { products := [
      { id := 1, name := "widget", sku := "SKU-1", buying_price := 3,
        selling_price := 5, current_stock := 6, min_stock_level := 2,
        is_active := true }],
    sales := [{ id := 1, sale_number := "SALE-000001", total_amount := 20 }],
    items := [
      { id := 1, saleId := 1, productId := 1, quantity := 4,
        unit_price := 5 }],
    transactions := [] }

def c1prod : Product :=
  { id := 1, name := "widget", sku := "SKU-1", buying_price := 3,
    selling_price := 5, current_stock := 6, min_stock_level := 2,
    is_active := true }

def c1item : SaleItemInstance :=
  { pk := some 1, saleId := 1, product := some c1prod, quantity := 2,
    unit_price := 5 }

/-- C1 (code bug evidence): updating the quantity of an existing sale item
from 4 to 2 on a product with stock 6, with the cached product snapshot
equal to the stored row, *succeeds* but leaves stock 4 = 6 - 2, not the
claimed 6 + 4 - 2 = 8: step 4 of `SaleItem.save` writes the stale cached
product object back, overwriting the restore performed in step 2. -/
theorem c1_update_same_product_stale_write :
    (SaleItem.save c1db c1item).1 = none ∧
    productStock c1db 1 = some 6 ∧
    productStock (SaleItem.save c1db c1item).2 1 = some 4 ∧
    productStock (SaleItem.save c1db c1item).2 1 ≠ some (6 + 4 - 2) := by
  refine ⟨by decide, by decide, by decide, by decide⟩

def c2db : DB :=
  { products := [
      { id := 1, name := "widget", sku := "SKU-1", buying_price := 3,
        selling_price := 5, current_stock := 6, min_stock_level := 2,
        is_active := true }],
    sales := [{ id := 1, sale_number := "SALE-000001", total_amount := 20 }],
    items := [
      { id := 1, saleId := 1, productId := 1, quantity := 4,
        unit_price := 5 }],
    transactions := [] }

/-- C2 (code bug evidence): deleting a sale that has an item (product stock
6, item quantity 4) does not succeed: `SaleItem.sale` is declared
`on_delete=PROTECT`, so `super().delete()` raises ProtectedError, the
atomic block rolls the stock restore back, and the database — stock 6, the
sale and its item — is entirely unchanged, instead of the claimed stock 10
with sale and items gone. -/
theorem c2_sale_delete_protected :
    (SaleDeleteView.delete c2db 1).1 = some "ProtectedError" ∧
    (SaleDeleteView.delete c2db 1).2 = c2db ∧
    productStock (SaleDeleteView.delete c2db 1).2 1 = some 6 := by
  refine ⟨by decide, by decide, by decide⟩

def c6db : DB :=
  { products := [
      { id := 1, name := "widget", sku := "SKU-1", buying_price := 3,
        selling_price := 5, current_stock := 5, min_stock_level := 2,
        is_active := true }],
    sales := [], items := [], transactions := [] }

/-- C6 (code bug evidence): a stock transaction of quantity -10 against a
product with stock 5 raises (the product save refuses the negative
counter), yet the transaction row was already committed by `super().save()`
— there is no enclosing atomic block — so the final, fully observable state
has the transaction record present while the counter is unadjusted at 5. -/
theorem c6_transaction_partial_state :
    (StockTransaction.save c6db { productId := 1, quantity := -10 }).1.isSome ∧
    (StockTransaction.save c6db { productId := 1, quantity := -10 }).2.transactions =
      [{ id := 1, productId := 1, quantity := -10 }] ∧
    productStock (StockTransaction.save c6db { productId := 1, quantity := -10 }).2 1 =
      some 5 := by
  refine ⟨by decide, by decide, by decide⟩

def c8db : DB :=
  { products := [
      { id := 2, name := "older", sku := "SKU-2", buying_price := 1,
        selling_price := 2, current_stock := 0, min_stock_level := 2,
        is_active := true }],
    sales := [], items := [], transactions := [] }

def c8p : ProductInstance :=
  { pk := none, name := "fresh", sku := "", buying_price := 1,
    selling_price := 2, current_stock := 0, min_stock_level := 2,
    is_active := true }

/-- C8 (counterexample): with one existing product (id 2, sku "SKU-2",
e.g. after an earlier product was deleted), saving a new product without a
SKU generates `SKU-(count+1)` = "SKU-2", which *equals* the existing
product's SKU; the unique constraint then rejects the save and nothing is
persisted — contradicting the claim that the assigned SKU is always
distinct from every other existing product's. -/
theorem c8_counterexample :
    "SKU-" ++ toString (productCount c8db + 1) = "SKU-2" ∧
    (Product.save c8db c8p).1 = some "IntegrityError: duplicate sku" ∧
    (Product.save c8db c8p).2 = c8db := by
  refine ⟨by decide, by decide, by decide⟩

/-- C8 (amended): first save of a product without a SKU assigns
`SKU-(count+1)`; provided no existing product already bears that SKU, the
save succeeds and the assigned SKU is distinct from every existing
product's SKU (otherwise — see the counterexample — the unique constraint
rejects the save and nothing is persisted). -/
theorem c8_sku_assignment (db : DB) (p : ProductInstance)
    (hpk : p.pk = none) (hsku : p.sku = "")
    (hclean : Product.cleanCheck p = none)
    (hfresh : ∀ q ∈ db.products,
      q.sku ≠ "SKU-" ++ toString (productCount db + 1)) :
    (Product.save db p).1 = none ∧
    ∃ r, findProduct (Product.save db p).2 (freshProductId db) = some r ∧
      r.sku = "SKU-" ++ toString (productCount db + 1) ∧
      ∀ q ∈ db.products, q.sku ≠ r.sku := by
  have hsave : Product.save db p =
      (none, putProduct db
        { id := freshProductId db, name := p.name,
          sku := "SKU-" ++ toString (productCount db + 1),
          buying_price := p.buying_price, selling_price := p.selling_price,
          current_stock := p.current_stock, min_stock_level := p.min_stock_level,
          is_active := p.is_active }) := by
    unfold Product.save
    rw [hclean, hsku, hpk]
    dsimp only
    rw [if_pos rfl, if_neg ?_]
    intro hany
    rw [List.any_eq_true] at hany
    obtain ⟨q, hq, hcond⟩ := hany
    rw [decide_eq_true_eq] at hcond
    exact hfresh q hq hcond.1
  rw [hsave]
  refine ⟨rfl, ⟨_, findProduct_put_self db _, rfl, hfresh⟩⟩

def c8db2 : DB :=
  { products := [
      { id := 1, name := "first", sku := "SKU-1", buying_price := 1,
        selling_price := 2, current_stock := 0, min_stock_level := 2,
        is_active := true }],
    sales := [], items := [], transactions := [] }

def c8p2 : ProductInstance :=
  { pk := none, name := "second", sku := "", buying_price := 1,
    selling_price := 2, current_stock := 0, min_stock_level := 2,
    is_active := true }

/-- Witness for the amended C8: one product "SKU-1" exists; the new product
gets the fresh SKU "SKU-2". -/
theorem c8_sku_assignment_witness :
    (Product.save c8db2 c8p2).1 = none ∧
    ∃ r, findProduct (Product.save c8db2 c8p2).2 (freshProductId c8db2) = some r ∧
      r.sku = "SKU-" ++ toString (productCount c8db2 + 1) ∧
      ∀ q ∈ c8db2.products, q.sku ≠ r.sku :=
  c8_sku_assignment c8db2 c8p2 rfl rfl (by decide) (by decide)

/-- C9: the two JSON endpoints answer 200 with the documented body exactly
when a product with the requested id exists — active or inactive alike,
since neither view filters on `is_active` — and 404 with an error body
otherwise. -/
theorem c9_product_api_contract (db : DB) (pid : Nat) :
    ((∃ p ∈ db.products, p.id = pid) →
      ∃ p, findProduct db pid = some p ∧ p.id = pid ∧
        product_price_api db pid =
          { status := 200, price := some p.selling_price,
            stock := some p.current_stock, error := none } ∧
        product_stock_api db pid =
          { status := 200, price := none, stock := some p.current_stock,
            error := none }) ∧
    ((¬ ∃ p ∈ db.products, p.id = pid) →
      product_price_api db pid =
        { status := 404, price := none, stock := none,
          error := some "Product not found" } ∧
      product_stock_api db pid =
        { status := 404, price := none, stock := none,
          error := some "Product not found" }) := by
  constructor
  · intro hex
    cases hfind : findProduct db pid with
    | none =>
      exfalso
      obtain ⟨p, hp, hid⟩ := hex
      unfold findProduct at hfind
      rw [List.find?_eq_none] at hfind
      exact hfind p hp (by simpa using hid)
    | some p =>
      have hid : p.id = pid := by
        have h := List.find?_some (hfind : db.products.find? _ = some p)
        simpa using h
      refine ⟨p, rfl, hid, ?_, ?_⟩
      · unfold product_price_api
        rw [hfind]
      · unfold product_stock_api
        rw [hfind]
  · intro hnex
    cases hfind : findProduct db pid with
    | none =>
      constructor
      · unfold product_price_api
        rw [hfind]
      · unfold product_stock_api
        rw [hfind]
    | some p =>
      exfalso
      have hmem := List.mem_of_find?_eq_some (hfind : db.products.find? _ = some p)
      have hid : p.id = pid := by
        have h := List.find?_some (hfind : db.products.find? _ = some p)
        simpa using h
      exact hnex ⟨p, hmem, hid⟩

def c9db : DB :=
  { products := [
      { id := 1, name := "inactive", sku := "SKU-1", buying_price := 1,
        selling_price := 9, current_stock := 3, min_stock_level := 2,
        is_active := false }],
    sales := [], items := [], transactions := [] }

/-- C5: after a completed item-mutation transaction on a sale (items
created/updated, items deleted, then `update_total`, as both sale views
do), the sale's stored `total_amount` equals the sum of `quantity *
unit_price` over its items in the resulting database — 0 when it has no
items, since the empty aggregate is `None or 0`. -/
theorem c5_total_amount_invariant (db : DB) (sid : Nat)
    (saves : List SaleItemInstance) (deletes : List Nat) (db' : DB)
    (h : saleMutate db sid saves deletes = (none, db')) :
    ((db'.sales.find? (fun s => s.id = sid)).map (fun s => s.total_amount)) =
      some (subtotalSum (saleItemsOf db' sid)) := by
  unfold saleMutate at h
  rcases h1 : saveItemList db saves with ⟨e1, db1⟩
  rw [h1] at h
  cases e1 with
  | some e => simp at h
  | none =>
    dsimp only at h
    rcases h2 : Sale.update_total (deleteItemRows db1 deletes) sid with ⟨e2, db3⟩
    rw [h2] at h
    cases e2 with
    | some e => simp at h
    | none =>
      simp only [Prod.mk.injEq, true_and] at h
      subst h
      unfold Sale.update_total at h2
      split at h2
      · simp at h2
      · rename_i s hfound
        dsimp only at h2
        obtain ⟨s2, hgen, hpk, htot, hput⟩ := saleSave_success _ _ h2
        dsimp only at hput
        subst hput
        have hsid : s.id = sid := by
          simpa using List.find?_some hfound
        subst hsid
        rw [saleItemsOf_putSale]
        rw [findSale_put_self_fields]
        cases hl : saleItemsOf (deleteItemRows db1 deletes) s.id with
        | nil => rfl
        | cons i l => rfl

/-- Witness for C9 at a concrete database holding one inactive product. -/
theorem c9_product_api_contract_witness :
    ((∃ p ∈ c9db.products, p.id = 1) →
      ∃ p, findProduct c9db 1 = some p ∧ p.id = 1 ∧
        product_price_api c9db 1 =
          { status := 200, price := some p.selling_price,
            stock := some p.current_stock, error := none } ∧
        product_stock_api c9db 1 =
          { status := 200, price := none, stock := some p.current_stock,
            error := none }) ∧
    ((¬ ∃ p ∈ c9db.products, p.id = 1) →
      product_price_api c9db 1 =
        { status := 404, price := none, stock := none,
          error := some "Product not found" } ∧
      product_stock_api c9db 1 =
        { status := 404, price := none, stock := none,
          error := some "Product not found" }) :=
  c9_product_api_contract c9db 1

/-- C10: a successful update of an existing sale item that moves it to a
*different* product restores the stored quantity to the old product's
counter, deducts the new quantity from the new product's counter (the
cached snapshot equals the stored row here), and leaves every other
product's counter unchanged. -/
theorem c10_product_switch_reconciles (db db' : DB) (it : SaleItemInstance)
    (orig : SaleItem) (A B : Product)
    (hpk : it.pk = some orig.id)
    (horig : db.items.find? (fun o => o.id = orig.id) = some orig)
    (hA : findProduct db orig.productId = some A)
    (hB : it.product = some B)
    (_hBdb : findProduct db B.id = some B)
    (hne : B.id ≠ orig.productId)
    (hsucc : SaleItem.save db it = (none, db')) :
    productStock db' orig.productId = some (A.current_stock + orig.quantity) ∧
    productStock db' B.id = some (B.current_stock - it.quantity) ∧
    ∀ pid, pid ≠ orig.productId → pid ≠ B.id →
      productStock db' pid = productStock db pid := by
  have hAid : A.id = orig.productId := by
    simpa using List.find?_some hA
  unfold SaleItem.save at hsucc
  cases hclean : SaleItem.cleanCheck db it with
  | some e => simp only [hclean] at hsucc; simp at hsucc
  | none =>
    simp only [hclean, hB] at hsucc
    have hres : SaleItem.restoreOriginal db it =
        Product.saveRow db
          { A with current_stock := A.current_stock + orig.quantity } := by
      unfold SaleItem.restoreOriginal
      simp only [hpk, horig, hA]
    rw [hres] at hsucc
    rcases hr : Product.saveRow db
        { A with current_stock := A.current_stock + orig.quantity } with ⟨e1, db1⟩
    rw [hr] at hsucc
    cases e1 with
    | some e => simp at hsucc
    | none =>
      obtain ⟨rA, hdb1, hrAid0, hrAstock0⟩ := saveRow_success db _ hr
      have hrAid : rA.id = A.id := hrAid0
      have hrAstock : rA.current_stock = A.current_stock + orig.quantity :=
        hrAstock0
      subst hdb1
      simp only [hpk] at hsucc
      split at hsucc
      · simp at hsucc
      · split at hsucc
        · simp at hsucc
        · obtain ⟨rB, hdb', hrBid0, hrBstock0⟩ := saveRow_success _ _ hsucc
          have hrBid : rB.id = B.id := hrBid0
          have hrBstock : rB.current_stock = B.current_stock - it.quantity :=
            hrBstock0
          subst hdb'
          have hOrigRA : orig.productId = rA.id := (hrAid.trans hAid).symm
          have hOrigRB : orig.productId ≠ rB.id := by
            rw [hrBid]; exact fun h => hne h.symm
          refine ⟨?_, ?_, ?_⟩
          · unfold productStock
            rw [findProduct_put_other _ rB orig.productId hOrigRB,
              findProduct_putItem, hOrigRA, findProduct_put_self]
            simp [hrAstock]
          · unfold productStock
            rw [show B.id = rB.id from hrBid.symm, findProduct_put_self]
            simp [hrBstock]
          · intro pid h1 h2
            unfold productStock
            rw [findProduct_put_other _ rB pid (by rw [hrBid]; exact h2),
              findProduct_putItem,
              findProduct_put_other _ rA pid (by rw [hrAid, hAid]; exact h1)]

def c10A : Product :=
  { id := 1, name := "alpha", sku := "SKU-1", buying_price := 1,
    selling_price := 5, current_stock := 5, min_stock_level := 2,
    is_active := true }

def c10B : Product :=
  { id := 2, name := "beta", sku := "SKU-2", buying_price := 1,
    selling_price := 5, current_stock := 9, min_stock_level := 2,
    is_active := true }

def c10db : DB :=
  { products := [c10A, c10B],
    sales := [{ id := 1, sale_number := "SALE-000001", total_amount := 15 }],
    items := [
      { id := 1, saleId := 1, productId := 1, quantity := 3,
        unit_price := 5 }],
    transactions := [] }

def c10orig : SaleItem :=
  { id := 1, saleId := 1, productId := 1, quantity := 3, unit_price := 5 }

def c10item : SaleItemInstance :=
  { pk := some 1, saleId := 1, product := some c10B, quantity := 2,
    unit_price := 5 }

/-- Witness for C10: item of quantity 3 on product 1 (stock 5) is moved to
product 2 (stock 9) with quantity 2; stocks become 8 and 7. -/
theorem c10_product_switch_reconciles_witness :
    productStock (SaleItem.save c10db c10item).2 c10orig.productId =
      some (c10A.current_stock + c10orig.quantity) ∧
    productStock (SaleItem.save c10db c10item).2 c10B.id =
      some (c10B.current_stock - c10item.quantity) ∧
    ∀ pid, pid ≠ c10orig.productId → pid ≠ c10B.id →
      productStock (SaleItem.save c10db c10item).2 pid =
        productStock c10db pid :=
  c10_product_switch_reconciles c10db (SaleItem.save c10db c10item).2 c10item
    c10orig c10A c10B rfl (by decide) (by decide) rfl (by decide) (by decide)
    (by decide)

def c5db : DB :=
  { products := [
      { id := 1, name := "widget", sku := "SKU-1", buying_price := 3,
        selling_price := 5, current_stock := 10, min_stock_level := 2,
        is_active := true }],
    sales := [{ id := 1, sale_number := "SALE-000001", total_amount := 0 }],
    items := [], transactions := [] }

def c5prod : Product :=
  { id := 1, name := "widget", sku := "SKU-1", buying_price := 3,
    selling_price := 5, current_stock := 10, min_stock_level := 2,
    is_active := true }

def c5item : SaleItemInstance :=
  { pk := none, saleId := 1, product := some c5prod, quantity := 4,
    unit_price := 5 }

def c5res : DB := (saleMutate c5db 1 [c5item] []).2

/-- Witness for C5: creating one item (4 × 5) under sale 1 yields a stored
total of 20, the sum over the sale's items. -/
theorem c5_total_amount_invariant_witness :
    ((c5res.sales.find? (fun s => s.id = 1)).map (fun s => s.total_amount)) =
      some (subtotalSum (saleItemsOf c5res 1)) :=
  c5_total_amount_invariant c5db 1 [c5item] [] c5res (by decide)

/-- C7: a sale number is assigned exactly once. On the first save (blank
number, no pk) of a sale into a database whose sale numbers all parse and
whose numeric suffixes are monotone in row id — as is the case for every
database produced by the generator itself — the stored number is `SALE-`
followed by the zero-padded successor of the *highest numeric suffix among
all existing sale numbers* (`specMaxSuffix`); and any later save of a sale
whose number is already set stores that number unchanged. -/
theorem c7_sale_number_once (db db' : DB) (snew : SaleInstance)
    (db2 db2' : DB) (s2 : SaleInstance) (i2 : Nat)
    (_hwf : ∀ s ∈ db.sales, (parseSaleSuffix s.sale_number).isSome)
    (hmono : ∀ s ∈ db.sales, ∀ t ∈ db.sales, s.id ≤ t.id →
      saleSuffix s ≤ saleSuffix t)
    (hnum : snew.sale_number = "")
    (hnpk : snew.pk = none)
    (hsucc : Sale.save db snew = (none, db'))
    (h2num : s2.sale_number ≠ "")
    (h2pk : s2.pk = some i2)
    (h2succ : Sale.save db2 s2 = (none, db2')) :
    db'.sales.find? (fun t => t.id = freshSaleId db) =
      some { id := freshSaleId db,
             sale_number := "SALE-" ++ pad6 (specMaxSuffix db + 1),
             total_amount := snew.total_amount } ∧
    db2'.sales.find? (fun t => t.id = i2) =
      some { id := i2, sale_number := s2.sale_number,
             total_amount := s2.total_amount } := by
  constructor
  · obtain ⟨sg, hgen, hgpk, hgtot, hput⟩ := saleSave_success db snew hsucc
    simp only [hnpk] at hput
    have hnumber : sg.sale_number = "SALE-" ++ pad6 (specMaxSuffix db + 1) := by
      unfold Sale.genNumber at hgen
      rw [if_pos hnum] at hgen
      cases hlast : lastSaleByPk db with
      | none =>
        simp only [hlast] at hgen
        have hempty : db.sales = [] := by
          apply foldl_saleFoldStep_none db.sales none
          exact hlast
        injection hgen with hgen
        rw [← hgen]
        unfold specMaxSuffix
        rw [hempty]
        rfl
      | some ls =>
        simp only [hlast] at hgen
        have hmem : ls ∈ db.sales := by
          rcases foldl_saleFoldStep_mem db.sales none ls hlast with h | h
          · exact h
          · cases h
        cases hparse : parseSaleSuffix ls.sale_number with
        | none => simp only [hparse] at hgen; cases hgen
        | some n =>
          simp only [hparse] at hgen
          injection hgen with hgen
          rw [← hgen]
          have hsuf : saleSuffix ls = n := by
            unfold saleSuffix
            rw [hparse]
            rfl
          have hmax : saleSuffix ls = specMaxSuffix db :=
            lastSale_suffix_is_max db ls hlast hmono
          rw [← hmax, hsuf]
    subst hput
    rw [hnumber] at *
    rw [← hgtot]
    exact findSale_put_self_fields db (freshSaleId db) _ sg.total_amount
  · obtain ⟨sg2, hgen2, hgpk2, hgtot2, hput2⟩ := saleSave_success db2 s2 h2succ
    have hgeq : sg2 = s2 := by
      unfold Sale.genNumber at hgen2
      rw [if_neg h2num] at hgen2
      injection hgen2 with hgen2
      exact hgen2.symm
    subst hgeq
    simp only [h2pk] at hput2
    subst hput2
    exact findSale_put_self_fields db2 i2 sg2.sale_number sg2.total_amount

def c7db : DB :=
  { products := [],
    sales := [
      { id := 1, sale_number := "SALE-000003", total_amount := 0 },
      { id := 2, sale_number := "SALE-000007", total_amount := 0 }],
    items := [], transactions := [] }

def c7new : SaleInstance := { pk := none, sale_number := "", total_amount := 0 }

def c7res : DB := (Sale.save c7db c7new).2

def c7upd : SaleInstance :=
  { pk := some 1, sale_number := "SALE-000003", total_amount := 15 }

def c7res2 : DB := (Sale.save c7res c7upd).2

/-- Witness for C7: on suffixes 3 and 7 the generated number is
SALE-000008; re-saving sale 1 with its number set keeps SALE-000003. -/
theorem c7_sale_number_once_witness :
    c7res.sales.find? (fun t => t.id = freshSaleId c7db) =
      some { id := freshSaleId c7db,
             sale_number := "SALE-" ++ pad6 (specMaxSuffix c7db + 1),
             total_amount := c7new.total_amount } ∧
    c7res2.sales.find? (fun t => t.id = 1) =
      some { id := 1, sale_number := c7upd.sale_number,
             total_amount := c7upd.total_amount } :=
  c7_sale_number_once c7db c7res c7new c7res c7res2 c7upd 1
    (by decide) (by decide) rfl rfl (by decide) (by decide) rfl (by decide)

end StockWise
